import Mathlib

/-
  A shallow embedding of the vinelouzada.com static blog: its content store
  (two Markdown posts under src/content/posts), its build configuration
  (src/nuxt.config.ts and the alternate configuration src/unnamed/part_000),
  and the content resolution and rendering pipeline those configurations
  drive (front matter, Markdown blocks, syntax highlighting, route rules,
  prerendering, page assembly).  The pipeline itself lives in the third-party
  framework, so its operations are modelled from the specification; the
  content store and both configuration objects are translated directly from
  the repository sources.
-/

namespace Blog

/-- A block-level node of a Markdown document body: paragraph, heading,
blockquote, fenced-code block (carrying its raw info string after the
opening fence and its literal text), unordered list, or thematic break. -/
inductive Block where
  | paragraph (text : String)
  | heading (level : Nat) (text : String)
  | quote (text : String)
  | code (info : String) (text : String)
  | ulist (items : List String)
  | hrule
deriving DecidableEq

/-- A document of the content store: the front-matter fields
(id, title, date, banner, slug, abstract) and the body blocks. -/
structure Document where
  id : Int
  title : String
  date : String
  banner : String
  slug : String
  abstract : String
  body : List Block
deriving DecidableEq
/-- Body blocks of src/content/posts/solid-principles.md. -/
def solidPrinciplesBody : List Block := [
  Block.paragraph "Todo código que você escreve hoje vai ser lido por alguém amanhã. Pode ser um colega de equipe, um dev que entrou no projeto meses depois, ou até você mesmo que, convenhamos, daqui a seis meses já é praticamente outra pessoa. E quando esse alguém abre o seu código, ele não sabe o que você estava pensando, que prazo estava apertando, que bug você estava caçando às onze da noite. Ele só tem o que está escrito ali.",
  Block.paragraph "É por isso que escrever código limpo não é vaidade técnica. É responsabilidade. É um compromisso silencioso com quem vem depois.",
  Block.paragraph "Os princípios **SOLID** são, no fundo, sobre isso. Sim, eles tornam o código mais flexível, mais testável, mais fácil de manter. Mas antes de tudo, eles te forçam a pensar no outro, a pessoa que vai precisar entender, estender e confiar no que você deixou para trás. Vamos ver como cada um desses princípios se traduz na prática.",
  Block.hrule,
  Block.heading 2 "S — Single Responsibility Principle (SRP)",
  Block.quote "*\"Uma classe deve ter um, e apenas um, motivo para mudar.\"*\n— Robert Martin",
  Block.paragraph "A ideia aqui é simples: cada classe deve ser responsável por **apenas uma coisa**, e deve fazer essa coisa muito bem.",
  Block.paragraph "Quando estamos começando em OO, é natural criar o que chamamos de **\"classe Deus\"**, aquela que resolve tudo em um único lugar. Parece conveniente no início, mas rapidamente vira um problema. Olha esse exemplo:",
  Block.code "java"
    "public class FolhaDePagamento \x7b\n\n    public double calcularSalario(double horas, double valorHora) \x7b\n        return horas * valorHora;\n    \x7d\n\n    public String gerarHolerite(String nome, double salario) \x7b\n        return \"Funcionario: \" + nome + \"\\nSalario: R$ \" + salario;\n    \x7d\n\n    public void enviarNotificacao(String nome) \x7b\n        System.out.println(\"Notificando \" + nome + \" sobre o pagamento...\");\n    \x7d\n\x7d",
  Block.paragraph "Parece inofensivo, né? Mas repare: essa classe tem **três motivos diferentes para mudar** — o cálculo do salário, o formato do holerite e a regra de notificação. Qualquer alteração em qualquer um desses contextos vai te trazer de volta a essa classe.",
  Block.paragraph "A solução é separar as responsabilidades em classes dedicadas:",
  Block.code "java"
    "public class CalculadoraSalario \x7b\n    public double calcular(double horas, double valorHora) \x7b\n        return horas * valorHora;\n    \x7d\n\x7d\n\npublic class GeradorHolerite \x7b\n    public String gerar(String nome, double salario) \x7b\n        return \"\"\"\n            ===== HOLERITE =====\n            Funcionario: %s\n            Salario: R$ %.2f\n            ====================\n            \"\"\".formatted(nome, salario);\n    \x7d\n\x7d\n\npublic class NotificacaoService \x7b\n    public void notificar(String nome) \x7b\n        System.out.println(\"Notificando \" + nome + \" sobre o pagamento...\");\n    \x7d\n\x7d",
  Block.paragraph "E por fim, uma classe que **orquestra** tudo:",
  Block.code "java"
    "public class FolhaService \x7b\n\n    private final CalculadoraSalario calculadora;\n    private final GeradorHolerite gerador;\n    private final NotificacaoService notificacao;\n\n    public FolhaService(CalculadoraSalario calculadora, GeradorHolerite gerador, NotificacaoService notificacao) \x7b\n        this.calculadora = calculadora;\n        this.gerador = gerador;\n        this.notificacao = notificacao;\n    \x7d\n\n    public void processar(String nome, double horas, double valorHora) \x7b\n        double salario = calculadora.calcular(horas, valorHora);\n        String holerite = gerador.gerar(nome, salario);\n        System.out.println(holerite);\n        notificacao.notificar(nome);\n    \x7d\n\x7d",
  Block.paragraph "Agora a `FolhaService` só muda se o **fluxo de processar a folha de pagamento** mudar. Cada classe tem seu próprio mundo e isso é muito mais saudável.",
  Block.paragraph "Pensa no dev que vai pegar esse código depois de você: se ele precisar mudar a lógica de notificação, ele sabe exatamente onde ir. Não precisa ler 200 linhas de uma classe monolítica tentando adivinhar onde começa e termina cada responsabilidade. Isso é respeito com o tempo do outro.",
  Block.hrule,
  Block.heading 2 "O — Open/Closed Principle (OCP)",
  Block.quote "*\"Entidades de software devem ser abertas para extensão, mas fechadas para modificação.\"*\n— Bertrand Meyer",
  Block.paragraph "Traduzindo para o dia a dia: você deve conseguir **adicionar novos comportamentos ao sistema sem precisar mexer no código que já funciona**.",
  Block.paragraph "Imagine um sistema de cálculo de frete para um e-commerce:",
  Block.code "java"
    "public class CalculadoraFrete \x7b\n    public double calcular(String tipoEntrega, double peso) \x7b\n        if (tipoEntrega.equals(\"NORMAL\")) \x7b\n            return peso * 5.0;\n        \x7d else if (tipoEntrega.equals(\"EXPRESSO\")) \x7b\n            return peso * 10.0;\n        \x7d\n        return 0.0;\n    \x7d\n\x7d",
  Block.paragraph "À primeira vista parece simples. Mas pensa comigo: cada novo tipo de frete exige que você **abra essa classe e modifique o código existente**. Cada `if` novo aumenta a chance de bugs. As regras vão se acumulando e o código fica cada vez mais frágil.",
  Block.paragraph "Essa classe está \"fechada\" para extensão e \"aberta\" para modificação — o exato oposto do que o OCP prega.",
  Block.paragraph "A solução começa com um contrato claro via interface:",
  Block.code "java"
    "public interface Frete \x7b\n    double calcular(double peso);\n\x7d",
  Block.paragraph "Cada tipo de frete vira uma classe independente:",
  Block.code "java"
    "public class FreteNormal implements Frete \x7b\n    @Override\n    public double calcular(double peso) \x7b\n        return peso * 5.0;\n    \x7d\n\x7d\n\npublic class FreteExpresso implements Frete \x7b\n    @Override\n    public double calcular(double peso) \x7b\n        return peso * 10.0;\n    \x7d\n\x7d",
  Block.paragraph "E a calculadora passa a não precisar saber quais tipos existem:",
  Block.code "java"
    "public class CalculadoraFrete \x7b\n    public double calcular(Frete frete, double peso) \x7b\n        return frete.calcular(peso);\n    \x7d\n\x7d",
  Block.paragraph "Surgiu um novo tipo de frete? Basta criar uma nova implementação. A estrutura existente não precisa ser tocada. É assim que o código deve crescer — por adição, não por modificação.",
  Block.paragraph "Quando você desenha um sistema assim, está dizendo: \"pode adicionar coisas novas sem medo, o que já existe não vai quebrar.\" Isso é deixar o caminho aberto para o próximo, em vez de deixar uma armadilha.",
  Block.hrule,
  Block.heading 2 "L — Liskov Substitution Principle (LSP)",
  Block.quote "*\"Classes filhas nunca deveriam infringir as definições de tipo da classe pai.\"*\n\n— Barbara Liskov",
  Block.paragraph "O LSP garante que, se `B` herda de `A`, então `B` deve poder ser usada em qualquer lugar onde `A` é esperada, sem surpresas, sem quebrar nada.",
  Block.paragraph "Em outras palavras: **uma subclasse nunca pode quebrar o contrato da superclasse**.",
  Block.paragraph "Imagine um sistema de pagamentos com uma classe base:",
  Block.code "java"
    "public class Pagamento \x7b\n    public void processar(double valor) \x7b\n        System.out.println(\"Pagamento de R$ \" + valor + \" processado.\");\n    \x7d\n\x7d",
  Block.paragraph "Agora alguém cria um `PagamentoParcelado` assim:",
  Block.code "java"
    "public class PagamentoParcelado extends Pagamento \x7b\n    @Override\n    public void processar(double valor) \x7b\n        throw new UnsupportedOperationException(\"Pagamento parcelado não usa este método.\");\n    \x7d\n\n    public void processarParcelado(double valor, int parcelas) \x7b\n        System.out.println(\"Pagamento parcelado em \" + parcelas + \"x de R$ \" + valor);\n    \x7d\n\x7d",
  Block.paragraph "E em algum lugar do sistema:",
  Block.code "java"
    "public void finalizarCompra(Pagamento pagamento, double valor) \x7b\n    pagamento.processar(valor); // 💥 Quebra se for PagamentoParcelado\n\x7d",
  Block.paragraph "O código compila, mas explode em tempo de execução. Isso é uma violação clara do LSP.",
  Block.paragraph "A correção passa por usar uma abstração bem definida:",
  Block.code "java"
    "public interface MetodoPagamento \x7b\n    void processar(double valor);\n\x7d\n\npublic class PagamentoAVista implements MetodoPagamento \x7b\n    @Override\n    public void processar(double valor) \x7b\n        System.out.println(\"Pagamento à vista de R$ \" + valor);\n    \x7d\n\x7d\n\npublic class PagamentoParcelado implements MetodoPagamento \x7b\n    @Override\n    public void processar(double valor) \x7b\n        System.out.println(\"Pagamento parcelado (valor total): R$ \" + valor);\n    \x7d\n\x7d",
  Block.paragraph "E o fluxo final funciona para qualquer tipo:",
  Block.code "java"
    "public void finalizarCompra(MetodoPagamento pagamento, double valor) \x7b\n    pagamento.processar(valor); // ✅ Funciona para qualquer implementação\n\x7d",
  Block.paragraph "Simples assim. Quando o contrato é respeitado, o código é previsível — e previsibilidade é sinônimo de confiança.",
  Block.hrule,
  Block.heading 2 "I — Interface Segregation Principle (ISP)",
  Block.quote "*\"Uma classe não deve ser forçada a depender de métodos que não utilizará.\"*\n\n— Robert C. Martin",
  Block.paragraph "Interfaces grandes e genéricas demais são um problema. Elas obrigam implementações a criar métodos que não fazem sentido naquele contexto e isso é um cheiro ruim no código.",
  Block.paragraph "Pense num sistema de atendimento técnico com impressoras:",
  Block.code "java"
    "// ❌ Interface \"gorda\" que tenta fazer tudo\npublic interface Impressora \x7b\n    void imprimir(String documento);\n    void escanear(String documento);\n    void enviarFax(String documento);\n\x7d",
  Block.paragraph "O problema: uma impressora simples só imprime. Um scanner só escaneia. Quase nenhum equipamento moderno envia fax. Se uma classe implementar essa interface, será obrigada a criar métodos que não fazem sentido para ela — violando o ISP.",
  Block.paragraph "A solução é segregar as responsabilidades:",
  Block.code "java"
    "public interface Imprimivel \x7b\n    void imprimir(String documento);\n\x7d\n\npublic interface Escaneavel \x7b\n    void escanear(String documento);\n\x7d\n\npublic interface EnviaFax \x7b\n    void enviarFax(String documento);\n\x7d",
  Block.paragraph "Uma impressora simples implementa apenas o que é dela:",
  Block.code "java"
    "public class ImpressoraSimples implements Imprimivel \x7b\n    @Override\n    public void imprimir(String documento) \x7b\n        System.out.println(\"Imprimindo: \" + documento);\n    \x7d\n\x7d",
  Block.paragraph "Já uma multifuncional pode implementar tudo:",
  Block.code "java"
    "public class Multifuncional implements Imprimivel, Escaneavel, EnviaFax \x7b\n    @Override\n    public void imprimir(String documento) \x7b\n        System.out.println(\"Imprimindo: \" + documento);\n    \x7d\n\n    @Override\n    public void escanear(String documento) \x7b\n        System.out.println(\"Escaneando: \" + documento);\n    \x7d\n\n    @Override\n    public void enviarFax(String documento) \x7b\n        System.out.println(\"Enviando fax: \" + documento);\n    \x7d\n\x7d",
  Block.paragraph "Interfaces pequenas e coesas permitem que cada classe implemente apenas o que realmente faz. Sem peso desnecessário, sem métodos vazios, sem gambiarras.",
  Block.paragraph "Quando o próximo dev precisar criar uma nova implementação, ele olha a interface e entende exatamente o que se espera dele. Nada mais, nada menos. É um acordo claro entre quem escreveu e quem vai continuar.",
  Block.hrule,
  Block.heading 2 "D — Dependency Inversion Principle (DIP)",
  Block.quote "*\"Abstrações não devem depender de implementações. Implementações devem depender de abstrações.\"*\n\n— Robert C. Martin",
  Block.paragraph "Quando estamos começando, é comum criar classes que dependem diretamente de outras classes concretas. Isso gera acoplamento, torna o sistema rígido e dificulta muito os testes.",
  Block.paragraph "Um erro muito frequente no mercado é quando um serviço de negócio chama diretamente um serviço técnico:",
  Block.code "java"
    "public class CadastroUsuarioService \x7b\n\n    private final EmailSmtp emailSmtp = new EmailSmtp(); // ❌ dependência concreta\n\n    public void cadastrar(String email) \x7b\n        System.out.println(\"Salvando usuário...\");\n        emailSmtp.enviar(email, \"Bem-vindo!\");\n    \x7d\n\x7d\n\npublic class EmailSmtp \x7b\n    public void enviar(String destino, String mensagem) \x7b\n        System.out.println(\"Enviando e-mail via SMTP para \" + destino);\n    \x7d\n\x7d",
  Block.paragraph "Parece simples, mas pensa nas consequências: e se a empresa migrar para SendGrid ou SES? E se quiser colocar uma fila no meio? E se quiser testar essa classe sem mandar e-mail de verdade? Você vai precisar **abrir e modificar** o `CadastroUsuarioService` que é uma regra de negócio por causa de um detalhe técnico. Isso é exatamente o que o DIP proíbe.",
  Block.paragraph "A solução começa com uma abstração:",
  Block.code "java"
    "public interface EmailService \x7b\n    void enviar(String destino, String mensagem);\n\x7d",
  Block.paragraph "Cada provedor vira uma implementação:",
  Block.code "java"
    "public class EmailSmtp implements EmailService \x7b\n    public void enviar(String destino, String mensagem) \x7b\n        System.out.println(\"Enviando via SMTP: \" + destino);\n    \x7d\n\x7d\n\npublic class EmailSendGrid implements EmailService \x7b\n    public void enviar(String destino, String mensagem) \x7b\n        System.out.println(\"Enviando via SendGrid: \" + destino);\n    \x7d\n\x7d",
  Block.paragraph "E o serviço de negócio passa a depender apenas da abstração:",
  Block.code "java"
    "public class CadastroUsuarioService \x7b\n\n    private final EmailService email;\n\n    public CadastroUsuarioService(EmailService email) \x7b\n        this.email = email;\n    \x7d\n\n    public void cadastrar(String emailDoUsuario) \x7b\n        System.out.println(\"Salvando usuário...\");\n        email.enviar(emailDoUsuario, \"Bem-vindo!\");\n    \x7d\n\x7d",
  Block.paragraph "Com isso você ganha sistema flexível, baixo acoplamento, testes fáceis (basta passar um `FakeEmailService`) e a liberdade de trocar de tecnologia sem tocar no código de negócio.",
  Block.paragraph "Esse é talvez o princípio que mais carrega o espírito do \"pensar em quem vem depois\". Você não sabe qual tecnologia a equipe vai usar daqui a um ano. Mas se a regra de negócio não depende de nenhuma implementação concreta, quem vier depois pode trocar as peças sem derrubar a casa.",
  Block.quote "Os sistemas mais flexíveis são aqueles em que as dependências do código-fonte se referem apenas a abstrações, nunca a implementações concretas.",
  Block.hrule,
  Block.heading 2 "Conclusão",
  Block.paragraph "SOLID não é uma receita para seguir cegamente e nem é sobre escrever o código \"perfeito\". É sobre uma postura. Uma forma de pensar que vai além de \"funciona\" e se pergunta: **\"e quando outra pessoa precisar trabalhar nisso?\"**",
  Block.paragraph "Cada princípio que vimos aqui, no fundo, responde a uma mesma preocupação: deixar o código num estado em que o próximo desenvolvedor consiga trabalhar com confiança. Que ele entenda onde cada coisa está (SRP). Que consiga adicionar funcionalidade sem medo de quebrar o que existe (OCP). Que possa confiar nos contratos (LSP). Que encontre interfaces claras e enxutas (ISP). Que consiga trocar implementações sem abrir o coração do sistema (DIP).",
  Block.paragraph "Software é um trabalho coletivo, mesmo quando você está codando sozinho. O \"você do futuro\" é tão \"outra pessoa\" quanto um colega novo no time. E o código que você deixa para trás diz muito sobre como você trabalha.",
  Block.paragraph "Escrever pensando em quem vem depois não é perder tempo é o que separa código que sobrevive de código que precisa ser reescrito. É o compromisso mais silencioso e mais valioso que um desenvolvedor pode assumir."
]

/-- The document parsed from src/content/posts/solid-principles.md. -/
def solidPrinciplesDoc : Document := {
  id := 2
  title := "SOLID e o compromisso com quem vem depois"
  date := "2026-02-23"
  banner := "solid.png"
  slug := "solid-principles"
  abstract := "Mais do que princípios técnicos, o SOLID representa uma responsabilidade com a evolução do software e com quem dará continuidade ao código. Uma reflexão prática, com exemplos curtos, sobre escrever pensando no futuro"
  body := solidPrinciplesBody }

/-- Body blocks of src/content/posts/padroes-e-variaveis-sem-nome.md. -/
def padroesBody : List Block := [
  Block.paragraph "No desenvolvimento de software é bem capaz que você já tenha passado por situações onde foi forçado a declarar uma variável, mesmo não utilizando elas, isso porque, no caso do Java, se você não declarar, o compilador irá acusar de erro. Por exemplo em: parâmetros locais, parâmetros de funções lambda, variáveis de exceções e etc;",
  Block.paragraph "Para resolver esse problema, o Java 22 trouxe uma novidade bem interessante: [Unnamed Variables & Patterns](https://openjdk.org/jeps/456), que em tradução literal seria “Variáveis e Padrões Sem Nome”.",
  Block.heading 2 "Tratamento de Exceções",
  Block.paragraph "O exemplo abaixo mostra um código de tratamento de exceção, onde a variável da exceção não está sendo utilizada:",
  Block.code "java[Main.java] meta-info=val"
    "        String valor1 = \"vinicius\";\n        try\x7b\n            Integer.parseInt(valor1);\n        \x7dcatch (Exception ex)\x7b\n            System.out.println(\"Não foi possível realizar a conversão para Int\");\n        \x7d",
  Block.paragraph "Neste exemplo, tentamos converter uma `String` para `int`. Quando isso não é possível, uma exceção é lançada. Embora o código funcione, a variável `ex` não está sendo utilizada. Para melhorar a clareza do código, podemos utilizar “Unnamed Variables & Patterns”, que nos permite empregar o operador `_` para substituir a variável não utilizada, como demonstrado a seguir:",
  Block.code "java"
    "        String valor1 = \"vinicius\";\n        try\x7b\n            Integer.parseInt(valor1);\n        \x7dcatch (Exception _)\x7b\n            System.out.println(\"Não foi possível realizar a conversão para Int\");\n        \x7d",
  Block.paragraph "Dessa forma, reduzimos a “complexidade” e deixamos o código mais claro, evitando variáveis sem uso.",
  Block.heading 2 "Funções Lambdas",
  Block.paragraph "Outro caso de uso é ao trabalhar com funções lambda. Veja o exemplo abaixo, onde a variável `name` não é utilizada no processamento:",
  Block.code "java"
    "        List<String>  names = List.of(\"Vinícius\", \"Maria Luíza\", \"Jill\");\n        Map<String, String> students = names.stream()\n                .collect(Collectors.toMap(\n                    String::toLowerCase, \n                    name -> \"MATRICULADO\"\n                ));",
  Block.paragraph "Nesse caso, o código pode ser simplificado também utilizando o operador `_`:",
  Block.code "java"
    "        Map<String, String> students = names.stream()\n                    .collect(Collectors.toMap(\n                        String::toLowerCase, \n                        _ -> \"MATRICULADO\"\n                    ));",
  Block.paragraph "Assim, a funcionalidade permanece intacta: pegamos a lista, transformamos em um mapa, onde os nomes são as chaves em letras minúsculas, e todos os valores são “MATRICULADO”.",
  Block.heading 2 "Loops",
  Block.paragraph "Um último exemplo é quando utilizamos um laço de repetição e não precisamos do “elemento”. Veja o código abaixo:",
  Block.code "java"
    "        String s = \"Hello, World!\";\n        int len = 0;\n\n        for (char character : s.toCharArray()) \x7b\n            len++;\n        \x7d",
  Block.paragraph "Esse código pode ser simplificado da seguinte maneira:",
  Block.code "java"
    "        String s = \"Hello, World!\";\n        int len = 0;\n\n        for (char _ : s.toCharArray()) \x7b\n            len++;\n        \x7d",
  Block.paragraph "Pronto, o comportamento continua o mesmo, apenas sinalizamos que não vamos precisar do `character`.",
  Block.heading 2 "Conclusão",
  Block.paragraph "Esses são alguns casos de uso dessa nova funcionalidade. Para mais detalhes, acesse a [JEP 456: Unnamed Variables & Patterns](https://openjdk.org/jeps/456).",
  Block.paragraph "Como vimos, essa nova funcionalidade oferece diversas vantagens, como a redução da complexidade do código e a eliminação de variáveis não utilizadas. No entanto, acredito que seu uso deve ser moderado, pois, em algumas situações, pode dificultar a legibilidade do código."
]

/-- The document parsed from src/content/posts/padroes-e-variaveis-sem-nome.md. -/
def padroesDoc : Document := {
  id := 1
  title := "Java 22: Padrões e variáveis sem nome"
  date := "2024-09-23"
  banner := "java22.jpg"
  slug := "padroes-e-variaveis-sem-nome"
  abstract := "Unnamed Variables and Patterns, simplificando o código ao eliminar variáveis não utilizadas"
  body := padroesBody }

/-- The content store: the two Markdown files of src/content/posts,
each paired with its file name. -/
def contentStore : List (String × Document) :=
  [("solid-principles.md", solidPrinciplesDoc),
   ("padroes-e-variaveis-sem-nome.md", padroesDoc)]

/-- The parsed info string of a fenced code block: the language tag, an
optional file name in square brackets, and key=value attribute pairs. -/
structure FenceInfo where
  lang : Option String
  filename : Option String
  attrs : List (String × String)
deriving DecidableEq

/-- Split a character list at the first character satisfying the test:
returns the characters before it and the remainder (which starts with the
found character, when one exists). -/
def takeUntilP (p : Char → Bool) : List Char → List Char × List Char
  | [] => ([], [])
  | c :: cs =>
    if p c then ([], c :: cs)
    else
      let r := takeUntilP p cs
      (c :: r.1, r.2)

/-- Split a character list on every occurrence of the separator. -/
def splitOnCh (c : Char) : List Char → List (List Char)
  | [] => [[]]
  | a :: as =>
    if a = c then [] :: splitOnCh c as
    else
      match splitOnCh c as with
      | [] => [[a]]
      | h :: t => (a :: h) :: t

/-- Parse one `key=value` attribute token; a token with no `=` yields an
empty value. -/
def parseAttrL (t : List Char) : String × String :=
  let r := takeUntilP (fun c => c == '=') t
  match r.2 with
  | _ :: v => (⟨r.1⟩, ⟨v⟩)
  | [] => (⟨r.1⟩, "")

/-- Parse the space-separated attribute tokens after the language tag. -/
def parseAttrsL (l : List Char) : List (String × String) :=
  ((splitOnCh ' ' l).filter (fun t => !t.isEmpty)).map parseAttrL

/-- Modelled from the spec: the fence info-string reader of the Markdown
renderer (framework code, not under src).  It accepts the observed pattern
`language[filename] key=value`: the language tag runs to the first `[` or
space, an optional file name sits between square brackets, and the rest are
`key=value` rendering hints.  Every input yields a `FenceInfo`; a bare
language tag or an empty info string parse with no hints. -/
def parseFenceInfoL : List Char → FenceInfo := fun l =>
  let r := takeUntilP (fun c => c == '[' || c == ' ') l
  let langOpt : Option String := if r.1.isEmpty then none else some ⟨r.1⟩
  match r.2 with
  | '[' :: rest =>
    let f := takeUntilP (fun c => c == ']') rest
    match f.2 with
    | _ :: after => ⟨langOpt, some ⟨f.1⟩, parseAttrsL after⟩
    | [] => ⟨langOpt, some ⟨f.1⟩, []⟩
  | ' ' :: rest => ⟨langOpt, none, parseAttrsL rest⟩
  | _ => ⟨langOpt, none, []⟩

/-- Parse the info string of a fenced code block. -/
def parseFenceInfo (s : String) : FenceInfo := parseFenceInfoL s.data

/-- A link entry of the configured app head (rel, type, href). -/
structure HeadLink where
  rel : String
  type : String
  href : String
deriving DecidableEq

/-- One route rule of the configuration: a path pattern and whether the
routes it matches are prerendered at build time. -/
structure RouteRule where
  pattern : String
  prerender : Bool
deriving DecidableEq

/-- The content.highlight section of the configuration: the theme name and
the allow-list of recognized language tags. -/
structure HighlightConfig where
  theme : String
  langs : List String
deriving DecidableEq

/-- A build configuration object (the shape shared by src/nuxt.config.ts
and src/unnamed/part_000): devtools toggle, module list, route rules, the
content.highlight section, the app.head link list, and the compatibility
date. -/
structure NuxtConfig where
  devtoolsEnabled : Bool
  modules : List String
  routeRules : List RouteRule
  highlight : HighlightConfig
  headLinks : List HeadLink
  compatibilityDate : String
deriving DecidableEq

/-- The configuration exported by src/nuxt.config.ts. -/
def nuxtConfig : NuxtConfig := {
  devtoolsEnabled := true
  modules := ["@nuxt/content"]
  routeRules := [{ pattern := "/**", prerender := true }]
  highlight := { theme := "one-dark-pro", langs := ["java", "php"] }
  headLinks := [{ rel := "icon", type := "image/x-icon", href := "/assets/img/logo.png" }]
  compatibilityDate := "2024-09-25" }

/-- The configuration exported by src/unnamed/part_000: identical to
src/nuxt.config.ts except that its only route rule uses the pattern "/"
instead of "/**" and it declares no app.head section (no link entries). -/
def part000Config : NuxtConfig := {
  devtoolsEnabled := true
  modules := ["@nuxt/content"]
  routeRules := [{ pattern := "/", prerender := true }]
  highlight := { theme := "one-dark-pro", langs := ["java", "php"] }
  headLinks := []
  compatibilityDate := "2024-09-25" }

/-- Modelled from the spec: the route-rule pattern matcher (framework code,
not under src).  A pattern ending in "/**" matches every path that extends
the part before it; any other pattern matches exactly itself.  In
particular "/**" matches every path and "/" matches only the root. -/
def matchesPattern (pat path : String) : Bool :=
  match pat.data.reverse with
  | '*' :: '*' :: '/' :: rest => List.isPrefixOf (rest.reverse ++ ['/']) path.data
  | _ => pat == path

/-- Modelled from the spec: a route is prerendered when the first route
rule whose pattern matches its path says so; a route matching no rule
defaults to on-demand rendering (not prerendered). -/
def resolvePrerender (rules : List RouteRule) (path : String) : Bool :=
  match rules.find? (fun r => matchesPattern r.pattern path) with
  | some r => r.prerender
  | none => false

/-- Modelled from the spec: the route resolver derives the route path of a
document 1:1 from its slug. -/
def routePath (slug : String) : String := "/posts/" ++ slug

/-- The route path of a document. -/
def routeOf (d : Document) : String := routePath d.slug

/-- Modelled from the spec: the opening markup the syntax highlighter
emits for a code block.  A language on the configured allow-list gets a
themed, language-annotated wrapper; any other tag (or no tag) gets the
plain wrapper.  The wrapper depends only on the configuration and the tag,
never on the block text. -/
def codeOpen (cfg : HighlightConfig) (langOpt : Option String) : String :=
  match langOpt with
  | some l =>
    if cfg.langs.contains l then
      "<pre class=\"shiki " ++ cfg.theme ++ "\"><code class=\"language-" ++ l ++ "\">"
    else "<pre><code>"
  | none => "<pre><code>"

/-- Modelled from the spec: highlighting wraps the raw block text, emitted
verbatim, in the opening markup chosen from the language tag. -/
def highlightCode (cfg : HighlightConfig) (langOpt : Option String) (text : String) : String :=
  codeOpen cfg langOpt ++ text ++ "</code></pre>"

/-- Join the pieces of a text that was split at `**` markers, alternating
opening and closing strong-emphasis tags. -/
def strongJoin : List String → Bool → String
  | [], _ => ""
  | [p], _ => p
  | p :: ps, b => p ++ (if b then "<strong>" else "</strong>") ++ strongJoin ps (!b)

/-- Modelled from the spec: inline Markdown interpretation (shown here for
strong emphasis, the inline rule the properties at issue exercise): `**`
delimited spans become strong-emphasis elements.  Applied to paragraph,
heading, quote and list content - never inside fenced code. -/
def renderInline (s : String) : String := strongJoin (s.splitOn "**") true

/-- The caption markup carrying a fence filename hint through to the page,
when one is present. -/
def codeCaption (fi : FenceInfo) : String :=
  match fi.filename with
  | some f => "<figcaption>" ++ f ++ "</figcaption>"
  | none => ""

/-- Modelled from the spec: the Markdown renderer.  Prose blocks go
through inline interpretation; a fenced code block has its info string
parsed for hints and its raw text passed verbatim to the highlighter. -/
def renderBlock (cfg : HighlightConfig) : Block → String
  | Block.paragraph text => "<p>" ++ renderInline text ++ "</p>"
  | Block.heading level text =>
      "<h" ++ toString level ++ ">" ++ renderInline text ++ "</h" ++ toString level ++ ">"
  | Block.quote text => "<blockquote>" ++ renderInline text ++ "</blockquote>"
  | Block.code info text =>
      let fi := parseFenceInfo info
      "<figure>" ++ codeCaption fi ++ highlightCode cfg fi.lang text ++ "</figure>"
  | Block.ulist items =>
      "<ul>" ++ String.join (items.map (fun i => "<li>" ++ renderInline i ++ "</li>")) ++ "</ul>"
  | Block.hrule => "<hr>"

/-- Render a whole document body. -/
def renderDoc (cfg : HighlightConfig) (d : Document) : String :=
  String.join (d.body.map (renderBlock cfg))

/-- A page artifact: route path, head links, rendered markup, and whether
the route is prerendered. -/
structure Page where
  path : String
  headLinks : List HeadLink
  html : String
  prerender : Bool
deriving DecidableEq

/-- Modelled from the spec: the page assembler combines the rendered body,
the front-matter metadata and the configured site chrome into one page
artifact keyed by the document route. -/
def assemblePage (cfg : NuxtConfig) (d : Document) : Page := {
  path := routeOf d
  headLinks := cfg.headLinks
  html := "<html><head><title>" ++ d.title ++ "</title></head><body>"
            ++ renderDoc cfg.highlight d ++ "</body></html>"
  prerender := resolvePrerender cfg.routeRules (routeOf d) }

/-- A build-time error of the pipeline. -/
inductive BuildError where
  | routeCollision (path : String)
deriving DecidableEq

/-- The first route path occurring twice in the list, when one exists. -/
def findDuplicate : List String → Option String
  | [] => none
  | r :: rs => if rs.contains r then some r else findDuplicate rs

/-- Modelled from the spec: the build over a document store.  Two
documents resolving to the same route path are a build-time error (the
route collision names the path); otherwise one page artifact is emitted
per document. -/
def buildStore (cfg : NuxtConfig) (docs : List Document) : Except BuildError (List Page) :=
  match findDuplicate (docs.map routeOf) with
  | some p => Except.error (BuildError.routeCollision p)
  | none => Except.ok (docs.map (assemblePage cfg))

/-- Modelled from the spec: emitting a page into the build output, an
association list keyed by route path; re-emitting a path replaces the
entry. -/
def emitPage (out : List (String × Page)) (pg : Page) : List (String × Page) :=
  match out with
  | [] => [(pg.path, pg)]
  | (k, v) :: rest =>
      if k = pg.path then (pg.path, pg) :: rest else (k, v) :: emitPage rest pg

/-- Splitting at the first hit: scanning a list made of a clean prefix, a
hit character and a tail stops exactly at the hit. -/
theorem takeUntilP_append (p : Char → Bool) (xs : List Char) (c : Char) (ys : List Char)
    (hxs : ∀ x ∈ xs, p x = false) (hc : p c = true) :
    takeUntilP p (xs ++ c :: ys) = (xs, c :: ys) := by
  induction xs with
  | nil => simp [takeUntilP, hc]
  | cons a as ih =>
    have ha : p a = false := hxs a (List.mem_cons_self a _)
    have ih2 := ih (fun x hx => hxs x (List.mem_cons_of_mem a hx))
    simp [takeUntilP, ha, ih2]

/-- Scanning a list with no hit consumes it whole. -/
theorem takeUntilP_of_none (p : Char → Bool) (xs : List Char)
    (h : ∀ x ∈ xs, p x = false) : takeUntilP p xs = (xs, []) := by
  induction xs with
  | nil => rfl
  | cons a as ih =>
    have ha : p a = false := h a (List.mem_cons_self a _)
    simp [takeUntilP, ha, ih (fun x hx => h x (List.mem_cons_of_mem a hx))]

/-- Splitting on a separator that never occurs yields the single piece. -/
theorem splitOnCh_of_no_sep (c : Char) (l : List Char) (h : ∀ x ∈ l, x ≠ c) :
    splitOnCh c l = [l] := by
  induction l with
  | nil => rfl
  | cons a as ih =>
    have ha : a ≠ c := h a (List.mem_cons_self a _)
    have ih2 := ih (fun x hx => h x (List.mem_cons_of_mem a hx))
    simp [splitOnCh, ha, ih2]

/-- Resolving against a rule list checks the head rule first. -/
theorem resolvePrerender_cons (r : RouteRule) (rs : List RouteRule) (path : String) :
    resolvePrerender (r :: rs) path =
      if matchesPattern r.pattern path then r.prerender else resolvePrerender rs path := by
  by_cases h : matchesPattern r.pattern path
  · simp [resolvePrerender, List.find?_cons_of_pos, h]
  · simp only [Bool.not_eq_true] at h
    simp [resolvePrerender, List.find?_cons, h]

/-- The pattern "/" matches a path exactly when the path is the root. -/
theorem matchesPattern_root (p : String) : matchesPattern "/" p = ("/" == p) := rfl

/-- Under the part_000 rule list a path is prerendered exactly when it is
the root path. -/
theorem part000_prerender_eq (p : String) :
    resolvePrerender part000Config.routeRules p = ("/" == p) := by
  show resolvePrerender [{ pattern := "/", prerender := true }] p = ("/" == p)
  rw [resolvePrerender_cons, matchesPattern_root]
  cases h : ("/" : String) == p
  · simp [resolvePrerender]
  · simp

/-- Re-emitting the same page into the output map leaves it unchanged. -/
theorem emitPage_idem (out : List (String × Page)) (pg : Page) :
    emitPage (emitPage out pg) pg = emitPage out pg := by
  induction out with
  | nil => simp [emitPage]
  | cons kv rest ih =>
    obtain ⟨k, v⟩ := kv
    by_cases hk : k = pg.path
    · simp [emitPage, hk]
    · simp [emitPage, hk, ih]

/-- Claim C1 (counterexample): the claim asserts that two distinct
documents of the content store carry the same slug "solid-principles"; in
fact no two distinct documents of the store share a slug at all. -/
theorem slug_collision_claim_refuted :
    ¬ ∃ i j : Fin contentStore.length, i ≠ j ∧
      (contentStore.get i).2.slug = (contentStore.get j).2.slug := by decide

/-- Claim C1 (amended): the two documents of the store have pairwise
distinct slugs, so the build succeeds with no collision report; on a store
where the second document did carry slug "solid-principles", the build
reports the route collision instead of emitting a page. -/
theorem store_slugs_distinct_and_collision_detected :
    List.Pairwise (fun a b => a.2.slug ≠ b.2.slug) contentStore ∧
    (buildStore nuxtConfig (contentStore.map Prod.snd)).isOk = true ∧
    buildStore nuxtConfig [solidPrinciplesDoc, { padroesDoc with slug := "solid-principles" }]
      = Except.error (BuildError.routeCollision "/posts/solid-principles") := by
  exact ⟨by decide, rfl, rfl⟩

/-- Claim C2: the configuration of src/nuxt.config.ts holds exactly one
route rule; its pattern "/**" matches every path, so every document route
is prerendered; and a path matching no rule resolves to on-demand
rendering. -/
theorem route_rules_single_and_universal :
    nuxtConfig.routeRules.length = 1 ∧
    (∀ p : String, p.data.head? = some '/' → matchesPattern "/**" p = true) ∧
    (∀ d : Document, resolvePrerender nuxtConfig.routeRules (routeOf d) = true) ∧
    (∀ (rules : List RouteRule) (path : String),
      (∀ r ∈ rules, matchesPattern r.pattern path = false) →
      resolvePrerender rules path = false) := by
  refine ⟨rfl, ?_, ?_, ?_⟩
  · intro p hp
    obtain ⟨d⟩ := p
    cases d with
    | nil => exact absurd hp (by decide)
    | cons c t =>
      have hc : c = '/' := Option.some.inj hp
      subst hc
      show List.isPrefixOf ['/'] ('/' :: t) = true
      simp [List.isPrefixOf]
  · intro d
    obtain ⟨i, ti, da, ba, s, ab, bo⟩ := d
    obtain ⟨l⟩ := s
    show resolvePrerender [{ pattern := "/**", prerender := true }] _ = true
    rw [resolvePrerender_cons]
    have hm : matchesPattern "/**"
        (routeOf { id := i, title := ti, date := da, banner := ba,
                   slug := ⟨l⟩, abstract := ab, body := bo }) = true := by
      show List.isPrefixOf ['/'] ('/' :: ("posts/".data ++ l)) = true
      simp [List.isPrefixOf]
    rw [hm]
    simp
  · intro rules path h
    have hf : rules.find? (fun r => matchesPattern r.pattern path) = none :=
      List.find?_eq_none.mpr (fun x hx => by simp [h x hx])
    simp [resolvePrerender, hf]

/-- Claim C2 (witness): the universal parts of the route-rule theorem at
the store's own route. -/
theorem route_rules_single_and_universal_witness :
    matchesPattern "/**" "/posts/solid-principles" = true ∧
    resolvePrerender nuxtConfig.routeRules (routeOf solidPrinciplesDoc) = true ∧
    resolvePrerender [] "/posts/solid-principles" = false :=
  ⟨route_rules_single_and_universal.2.1 "/posts/solid-principles" rfl,
   route_rules_single_and_universal.2.2.1 solidPrinciplesDoc,
   route_rules_single_and_universal.2.2.2 [] "/posts/solid-principles" (by simp)⟩

/-- Claim C3 (counterexample): the claim asserts two distinct documents of
the store share an id; in fact no two distinct documents do. -/
theorem duplicate_id_claim_refuted :
    ¬ ∃ i j : Fin contentStore.length, i ≠ j ∧
      (contentStore.get i).2.id = (contentStore.get j).2.id := by decide

/-- Claim C3 (amended): the id values observed in the store are 2 and 1,
which are pairwise distinct - id uniqueness happens to hold here even
though nothing enforces it. -/
theorem store_ids_distinct :
    contentStore.map (fun e => e.2.id) = [2, 1] ∧
    List.Pairwise (fun a b => a.2.id ≠ b.2.id) contentStore := by
  exact ⟨rfl, by decide⟩

/-- Claim C4: the configured allow-list is exactly ["java", "php"], and
highlighting any language tag outside it produces the very same rendering
as highlighting with no tag at all - the plain fallback, never an error. -/
theorem unrecognized_lang_renders_plain :
    nuxtConfig.highlight.langs = ["java", "php"] ∧
    ∀ (l text : String), nuxtConfig.highlight.langs.contains l = false →
      highlightCode nuxtConfig.highlight (some l) text
        = highlightCode nuxtConfig.highlight none text := by
  refine ⟨rfl, ?_⟩
  intro l text h
  have hopen : codeOpen nuxtConfig.highlight (some l) = codeOpen nuxtConfig.highlight none := by
    simp only [codeOpen, h]
    simp
  simp [highlightCode, hopen]

/-- Claim C4 (witness): the unrecognized tag "xyz123" renders exactly as an
untagged block. -/
theorem unrecognized_lang_renders_plain_witness :
    highlightCode nuxtConfig.highlight (some "xyz123") "sample code"
      = highlightCode nuxtConfig.highlight none "sample code" :=
  unrecognized_lang_renders_plain.2 "xyz123" "sample code" (by decide)

/-- Claim C5: the pipeline is a pure function of the document, so two runs
of page assembly on the same document state yield identical artifacts, and
re-emitting the assembled page into the build output a second time leaves
the output byte-identical. -/
theorem pipeline_rerun_identical :
    ∀ (cfg : NuxtConfig) (d : Document) (out : List (String × Page)),
      assemblePage cfg d = assemblePage cfg d ∧
      emitPage (emitPage out (assemblePage cfg d)) (assemblePage cfg d)
        = emitPage out (assemblePage cfg d) :=
  fun cfg d out => ⟨rfl, emitPage_idem out (assemblePage cfg d)⟩

/-- Claim C6: the route path of a document is a function of its slug
alone - two documents agreeing on slug get the same route path whatever
their other fields hold. -/
theorem route_pure_function_of_slug :
    ∀ d₁ d₂ : Document, d₁.slug = d₂.slug → routeOf d₁ = routeOf d₂ := by
  intro d₁ d₂ h
  simp [routeOf, routePath, h]

/-- Claim C6 (witness): two documents differing in every field but the slug
share a route path. -/
theorem route_pure_function_of_slug_witness :
    routeOf { id := 7, title := "A", date := "2020-01-01", banner := "a.png",
              slug := "shared-slug", abstract := "first", body := [] }
      = routeOf { id := 8, title := "B", date := "2021-02-02", banner := "b.png",
                  slug := "shared-slug", abstract := "second", body := [Block.hrule] } :=
  route_pure_function_of_slug _ _ rfl

/-- Claim C7: a fenced code block is rendered literally: the output is the
raw block text, byte for byte, between wrapper markup that depends only on
the configuration and the info string - the same wrapper whatever the
text, so no character of the text is reinterpreted or escaped. -/
theorem code_block_rendered_literally :
    ∀ (cfg : HighlightConfig) (info t₁ t₂ : String), ∃ pre : String,
      renderBlock cfg (Block.code info t₁) = pre ++ (t₁ ++ "</code></pre></figure>") ∧
      renderBlock cfg (Block.code info t₂) = pre ++ (t₂ ++ "</code></pre></figure>") := by
  intro cfg info t₁ t₂
  refine ⟨"<figure>" ++ codeCaption (parseFenceInfo info)
            ++ codeOpen cfg (parseFenceInfo info).lang, ?_, ?_⟩ <;>
  · simp only [renderBlock, highlightCode]
    rw [show ("</code></pre></figure>" : String) = "</code></pre>" ++ "</figure>" from rfl]
    simp [String.append_assoc]

/-- Claim C8: the fence info-string reader round-trips the observed
attribute pattern: for any well-formed language tag, bracketed file name
and key=value pair, `lang[fname] key=value` parses to exactly those three
hints; a bare language tag parses with no hints; and the empty info string
parses too - the attribute string's presence or absence never breaks
parsing. -/
theorem fence_info_roundtrip :
    ∀ (lang fname k v : List Char),
      lang ≠ [] →
      (∀ c ∈ lang, ((c == '[') || (c == ' ')) = false) →
      (∀ c ∈ fname, (c == ']') = false) →
      (∀ c ∈ k, c ≠ ' ') →
      (∀ c ∈ k, (c == '=') = false) →
      (∀ c ∈ v, c ≠ ' ') →
      parseFenceInfoL (lang ++ '[' :: (fname ++ ']' :: ' ' :: (k ++ '=' :: v)))
        = { lang := some ⟨lang⟩, filename := some ⟨fname⟩, attrs := [(⟨k⟩, ⟨v⟩)] }
      ∧ parseFenceInfoL lang = { lang := some ⟨lang⟩, filename := none, attrs := [] }
      ∧ parseFenceInfoL [] = { lang := none, filename := none, attrs := [] } := by
  intro lang fname k v hne hlang hfname hksp hkeq hvsp
  have h1 := takeUntilP_append (fun c => c == '[' || c == ' ') lang '['
    (fname ++ ']' :: ' ' :: (k ++ '=' :: v)) hlang (by decide)
  have h2 := takeUntilP_append (fun c => c == ']') fname ']'
    (' ' :: (k ++ '=' :: v)) hfname (by decide)
  have hattr : ∀ x ∈ k ++ '=' :: v, x ≠ ' ' := by
    intro x hx
    rcases List.mem_append.mp hx with hk | hv2
    · exact hksp x hk
    · rcases List.mem_cons.mp hv2 with he | hv3
      · subst he; decide
      · exact hvsp x hv3
  have h3 := splitOnCh_of_no_sep ' ' (k ++ '=' :: v) hattr
  have h4 := takeUntilP_append (fun c => c == '=') k '=' v hkeq (by decide)
  have hle : lang.isEmpty = false := by
    cases lang with
    | nil => exact absurd rfl hne
    | cons a as => rfl
  have hze : (k ++ '=' :: v).isEmpty = false := by
    cases k <;> rfl
  refine ⟨?_, ?_, rfl⟩
  · simp [parseFenceInfoL, parseAttrsL, parseAttrL, splitOnCh, h1, h2, h3, h4, hle, hze]
  · have h5 := takeUntilP_of_none (fun c => c == '[' || c == ' ') lang hlang
    simp [parseFenceInfoL, h5, hle]

/-- Claim C8 (witness): the info string observed in the content store
parses to exactly its three hints, and a bare "java" tag parses with
none. -/
theorem fence_info_roundtrip_witness :
    parseFenceInfo "java[Main.java] meta-info=val"
      = { lang := some "java", filename := some "Main.java", attrs := [("meta-info", "val")] }
    ∧ parseFenceInfo "java" = { lang := some "java", filename := none, attrs := [] } := by
  have h := fence_info_roundtrip "java".data "Main.java".data "meta-info".data "val".data
    (by decide) (by decide) (by decide) (by decide) (by decide) (by decide)
  exact ⟨h.1, h.2.1⟩

/-- Claim C9: every document of the content store has a slug equal to its
source file name stripped of the .md extension, so the slug-derived route
coincides with the file-system-derived one. -/
theorem slug_matches_filename :
    ∀ e ∈ contentStore, e.2.slug ++ ".md" = e.1 := by decide

/-- Claim C9 (witness): the first store entry at its concrete file name. -/
theorem slug_matches_filename_witness :
    solidPrinciplesDoc.slug ++ ".md" = "solid-principles.md" :=
  slug_matches_filename ("solid-principles.md", solidPrinciplesDoc)
    (List.mem_cons_self _ _)

/-- Claim C10: the two configurations agree on highlighting (theme
one-dark-pro, allow-list java and php), modules, compatibility date and
devtools, and differ in exactly the two claimed places: the route-rule
pattern ("/**" against "/", the latter prerendering only the root path and
leaving every other route on demand) and the app.head icon link that only
src/nuxt.config.ts declares. -/
theorem configs_differ_only_in_rules_and_head :
    nuxtConfig.highlight = part000Config.highlight ∧
    nuxtConfig.highlight = { theme := "one-dark-pro", langs := ["java", "php"] } ∧
    nuxtConfig.modules = part000Config.modules ∧
    nuxtConfig.compatibilityDate = part000Config.compatibilityDate ∧
    nuxtConfig.devtoolsEnabled = part000Config.devtoolsEnabled ∧
    nuxtConfig.routeRules = [{ pattern := "/**", prerender := true }] ∧
    part000Config.routeRules = [{ pattern := "/", prerender := true }] ∧
    (∀ p : String, resolvePrerender part000Config.routeRules p = true ↔ p = "/") ∧
    nuxtConfig.headLinks = [{ rel := "icon", type := "image/x-icon",
                              href := "/assets/img/logo.png" }] ∧
    part000Config.headLinks = [] := by
  refine ⟨rfl, rfl, rfl, rfl, rfl, rfl, rfl, ?_, rfl, rfl⟩
  intro p
  rw [part000_prerender_eq]
  exact ⟨fun hb => (eq_of_beq hb).symm, fun hp => by rw [hp]; exact rfl⟩

/-- Claim C10 (witness): under part_000 the root is prerendered while the
store's post route is not. -/
theorem configs_differ_only_in_rules_and_head_witness :
    resolvePrerender part000Config.routeRules "/" = true ∧
    resolvePrerender part000Config.routeRules "/posts/solid-principles" ≠ true :=
  ⟨(configs_differ_only_in_rules_and_head.2.2.2.2.2.2.2.1 "/").mpr rfl,
   fun h => by
     have := (configs_differ_only_in_rules_and_head.2.2.2.2.2.2.2.1
       "/posts/solid-principles").mp h
     exact absurd this (by decide)⟩

end Blog
